import Mathlib

/-!
Shallow embedding of `src/bot.py` (a Telegram bot that caches image posts
fetched per subreddit and serves them through start / navigation handlers).

Modelling conventions:
  * Network and JSON parsing are collapsed into a `FetchOutcome`: either the
    transport/parse stage failed with a message, or it produced the raw
    `data` array of submissions.  The filtering loop of `fetch_subreddit`
    is pure and is embedded directly.
  * Python exceptions are modelled with `Except String`; a `try/except`
    block becomes a `match` on the `Except` value.  A handler's result
    records the session after the call, the messages sent or edited, the
    warnings logged, and the exception that escaped the handler (if any).
  * `random.choice(l)` is modelled by `pyChoice l k`: an externally supplied
    draw index `k` reduced modulo the list length, so every element is
    reachable and the handlers are deterministic functions of the draw.
  * The cache dict is a total function from subreddit name to post list;
    `dict.get(key, [])` with a possibly-`None` key is `cacheLookup`.
-/

/-- The fixed SUBREDDITS list from the CONFIG section of `src/bot.py`. -/
def SUBREDDITS : List String :=
  ["aww", "cuteanimals", "cats", "dogs", "puppies", "kittens", "babyanimals",
   "rarepuppers", "animalsbeingderps", "AnimalsBeingBros", "AnimalPhotography",
   "corgi", "hedgehog", "tuckedinkitties", "rabbits", "guineapigs", "otters",
   "babybeasts", "foxes", "cute", "smallanimals", "squirrels", "hamsters",
   "chickens", "parrots", "ferrets", "wildlife", "bunnies", "seal", "penguins"]

/-- `MAX_POSTS_PER_SUB = 50` from the CONFIG section. -/
def MAX_POSTS_PER_SUB : Nat := 50

/-- One raw submission of the search API's `data` array: each of `id`,
`title`, `url` may be absent (or JSON null). -/
structure RawPost where
  id : Option String
  title : Option String
  url : Option String
deriving Repr, DecidableEq

/-- A normalized post record as built by `fetch_subreddit`. -/
structure Post where
  id : Option String
  title : String
  url : String
deriving Repr, DecidableEq, Inhabited

/-- Outcome of the network + JSON stage of one fetch: the part of
`fetch_subreddit` that can raise (aiohttp request, `resp.json()`). -/
inductive FetchOutcome where
  | failure (msg : String)
  | success (data : List RawPost)
deriving Repr, DecidableEq

/-- The image extension whitelist of `fetch_subreddit`. -/
def imageExts : List String := [".jpg", ".jpeg", ".png", ".gif"]

/-- `str.lower()` (ASCII case fold, character by character — the URLs and
extensions involved are ASCII). -/
def pyLower (s : String) : String := ⟨s.data.map Char.toLower⟩

/-- `str.endswith(suffix)`. -/
def strEndsWith (s suffix : String) : Bool := suffix.data.isSuffixOf s.data

/-- `any(img_url.lower().endswith(ext) for ext in [...])`. -/
def isImageUrl (u : String) : Bool :=
  imageExts.any fun ext => strEndsWith (pyLower u) ext

/-- The body of the filtering loop for one raw submission: skip when the
url is absent or empty (Python falsiness of `post.get("url")`), keep only
image-extension urls, defaulting the title to `"(no title)"`. -/
def processPost (p : RawPost) : Option Post :=
  match p.url with
  | none => none
  | some u =>
    if u = "" then none
    else if isImageUrl u then some ⟨p.id, p.title.getD "(no title)", u⟩
    else none

/-- The query URL built by `fetch_subreddit`. -/
def searchUrl (sub : String) : String :=
  "https://api.pullpush.io/reddit/submission/search?subreddit=" ++ sub ++
    "&size=" ++ toString MAX_POSTS_PER_SUB ++ "&sort=new&type=link&over_18=false"

/-- The `try` body of `fetch_subreddit`: it can raise (network / parse /
timeout), and on success it returns the filtered posts in order. -/
def fetch_body (o : FetchOutcome) : Except String (List Post) :=
  match o with
  | .failure msg => .error msg
  | .success data => .ok (data.filterMap processPost)

/-- `fetch_subreddit`: the `try/except` wrapper.  Returns the post list
together with the warning log lines; an exception of the body is caught,
logged, and the accumulated (empty) list is returned. -/
def fetch_subreddit (sub : String) (o : FetchOutcome) : List Post × List String :=
  match fetch_body o with
  | .ok posts => (posts, [])
  | .error e => ([], ["Failed to fetch " ++ sub ++ ": " ++ e])

/-- The in-memory cache `reddit_cache`, as a total lookup defaulting to `[]`
(both the initial dict comprehension and `dict.get(sub, [])` give `[]` for
an unpopulated or unknown key). -/
abbrev Cache := String → List Post

/-- The cache at startup: every entry empty. -/
def initCache : Cache := fun _ => []

/-- One iteration of the loop in `update_all_subreddits` for subreddit
`sub`: fetch, and overwrite the entry only when the result is non-empty. -/
def refreshStep (cache : Cache) (sub : String) (o : FetchOutcome) : Cache :=
  let posts := (fetch_subreddit sub o).1
  if posts = [] then cache
  else fun s => if s = sub then posts else cache s

/-- `update_all_subreddits`: one full refresh cycle over `SUBREDDITS`,
with `outcomes` giving the network outcome for each subreddit. -/
def update_all_subreddits (cache : Cache) (outcomes : String → FetchOutcome) : Cache :=
  SUBREDDITS.foldl (fun c sub => refreshStep c sub (outcomes sub)) cache

/-- Per-conversation `context.user_data`: the `last_sub` and `last_post`
keys, each possibly absent. -/
structure Session where
  last_sub : Option String
  last_post : Option Post
deriving Repr, DecidableEq

/-- A fresh conversation: no keys set. -/
def emptySession : Session := ⟨none, none⟩

/-- Python `f"{x}"` on an optional string: `None` renders as `"None"`. -/
def pyStr : Option String → String
  | none => "None"
  | some s => s

/-- `random.choice(l)` with an external draw index `k` (reduced modulo the
length; only ever used on non-empty lists, mirroring the guards in the
source). -/
def pyChoice {α : Type} [Inhabited α] (l : List α) (k : Nat) : α :=
  l.getD (k % l.length) default

/-- `reddit_cache.get(sub, [])` where `sub` may be `None` (no session). -/
def cacheLookup (cache : Cache) (key : Option String) : List Post :=
  match key with
  | none => []
  | some s => cache s

/-- One outbound message operation performed by a handler. -/
inductive HandlerOutput where
  | sentText (text : String)
  | sentPhoto (photo : String) (caption : String)
  | editedMedia (media : String) (caption : String)
  | editedCaption (text : String)
deriving Repr, DecidableEq

/-- Result of one handler invocation: session afterwards, messages
sent/edited, warnings logged, and the exception that escaped (if any). -/
structure HResult where
  session : Session
  outputs : List HandlerOutput
  logs : List String
  raised : Option String
deriving Repr, DecidableEq

/-- `send_random_post`: pick a random subreddit, bail out with the fixed
text when its cache entry is empty, otherwise record the selection into the
session and send (no `message_id`) or edit (`message_id` given) the photo.
The edit call is NOT inside a `try`, so an edit error escapes. -/
def send_random_post (cache : Cache) (session : Session) (subPick postPick : Nat)
    (message_id : Option Nat) (edit : Except String Unit) : HResult :=
  let sub := pyChoice SUBREDDITS subPick
  let posts := cache sub
  if posts = [] then
    ⟨session, [.sentText "Oops, something went wrong lol, try again later."], [], none⟩
  else
    let post := pyChoice posts postPick
    let session' : Session := ⟨some sub, some post⟩
    let caption := post.title ++ "\n/r/" ++ sub
    match message_id with
    | some _ =>
      match edit with
      | .ok _ => ⟨session', [.editedMedia post.url caption], [], none⟩
      | .error e => ⟨session', [], [], some e⟩
    | none => ⟨session', [.sentPhoto post.url caption], [], none⟩

/-- `button_handler`: re-read the session's last subreddit (possibly
`None`), notice an empty cache entry by editing the caption, dispatch
`"random"` to `send_random_post` with a `message_id`, and otherwise
(both `"next"` and `"prev"`) draw a fresh random post, update the session,
and edit the media inside a `try/except` that logs and swallows. -/
def button_handler (cache : Cache) (session : Session) (action : String)
    (subPick postPick : Nat) (edit : Except String Unit) : HResult :=
  let sub := session.last_sub
  let posts := cacheLookup cache sub
  if posts = [] then
    ⟨session, [.editedCaption ("No cached posts for r/" ++ pyStr sub ++ ".")], [], none⟩
  else if action = "random" then
    send_random_post cache session subPick postPick (some 0) edit
  else
    let new_post := pyChoice posts postPick
    let session' : Session := ⟨session.last_sub, some new_post⟩
    let caption := new_post.title ++ "\n/r/" ++ pyStr sub
    match edit with
    | .ok _ => ⟨session', [.editedMedia new_post.url caption], [], none⟩
    | .error e => ⟨session', [], ["Failed to edit media: " ++ e], none⟩

/-! Concrete fixtures used by counterexamples and witnesses. -/

/-- A post with an image url, as `fetch_subreddit` would build it. -/
def postA : Post := ⟨some "1", "A cat", "http://x/a.jpg"⟩

/-- The raw submission producing `postA`. -/
def rawA : RawPost := ⟨some "1", some "A cat", some "http://x/a.jpg"⟩

/-- A cache holding `postA` under `"aww"` (the subreddit `pyChoice`
selects at draw index `0`) and nothing elsewhere. -/
def cacheA : Cache := fun s => if s = "aww" then [postA] else []

/-- A session whose last subreddit is `"aww"`. -/
def sessA : Session := ⟨some "aww", some postA⟩

/-! Helper lemmas about the refresh cycle. -/

/-- Pointwise description of one refresh step. -/
theorem refreshStep_get (cache : Cache) (sub : String) (o : FetchOutcome) (s : String) :
    refreshStep cache sub o s =
      if s = sub ∧ (fetch_subreddit sub o).1 ≠ [] then (fetch_subreddit sub o).1
      else cache s := by
  unfold refreshStep
  by_cases h : (fetch_subreddit sub o).1 = [] <;> by_cases hs : s = sub <;>
    simp [h, hs]

/-- Pointwise description of a fold of refresh steps: a topic's entry is
replaced exactly when the topic is in the list and its fetch is non-empty,
and is untouched otherwise. -/
theorem foldl_refresh_get (l : List String) (cache : Cache)
    (outcomes : String → FetchOutcome) (T : String) :
    (l.foldl (fun c sub => refreshStep c sub (outcomes sub)) cache) T =
      if T ∈ l ∧ (fetch_subreddit T (outcomes T)).1 ≠ [] then
        (fetch_subreddit T (outcomes T)).1
      else cache T := by
  induction l generalizing cache with
  | nil => simp
  | cons h t ih =>
    simp only [List.foldl_cons, ih, refreshStep_get]
    by_cases hf : (fetch_subreddit T (outcomes T)).1 = []
    · simp only [hf, ne_eq, not_true_eq_false, and_false, if_false]
      by_cases hTh : T = h
      · subst hTh
        simp [hf]
      · simp [hTh]
    · by_cases hTt : T ∈ t
      · simp [hTt, hf]
      · by_cases hTh : T = h
        · subst hTh
          simp [hf]
        · simp [hTh, hTt]

/-- Pointwise description of one full refresh cycle. -/
theorem update_all_get (cache : Cache) (outcomes : String → FetchOutcome) (T : String) :
    update_all_subreddits cache outcomes T =
      if T ∈ SUBREDDITS ∧ (fetch_subreddit T (outcomes T)).1 ≠ [] then
        (fetch_subreddit T (outcomes T)).1
      else cache T :=
  foldl_refresh_get SUBREDDITS cache outcomes T

/-! Claim theorems. -/

/-- Claim C3 (confirmed): for every topic, when the network/parse/timeout
stage of the fetch errors, the body raises but `fetch_subreddit` catches
it, logs a warning, and returns the empty list — its caller always gets a
value, never the error. -/
theorem fetch_failure_silent (sub e : String) :
    fetch_body (FetchOutcome.failure e) = Except.error e ∧
    (fetch_subreddit sub (FetchOutcome.failure e)).1 = [] ∧
    (fetch_subreddit sub (FetchOutcome.failure e)).2 =
      ["Failed to fetch " ++ sub ++ ": " ++ e] :=
  ⟨rfl, rfl, rfl⟩

/-- Claim C5 (confirmed): one refresh step for topic `T` whose fetch
returns a non-empty list `P` leaves the cache entry for `T` equal to `P`
exactly — a full replacement, no merging with the previous entry. -/
theorem refresh_replaces_exactly (cache : Cache) (T : String) (o : FetchOutcome)
    (P : List Post) (hP : (fetch_subreddit T o).1 = P) (hne : P ≠ []) :
    refreshStep cache T o T = P := by
  rw [refreshStep_get, hP]
  simp [hne]

/-- Witness for `refresh_replaces_exactly` at a concrete cache and fetch. -/
theorem refresh_replaces_exactly_witness :
    refreshStep initCache "cats" (FetchOutcome.success [rawA]) "cats" = [postA] :=
  refresh_replaces_exactly initCache "cats" (FetchOutcome.success [rawA]) [postA]
    (by decide) (by decide)

/-- Claim C6 (confirmed): when the fetch for topic `T` fails, the refresh
cycle leaves `T`'s cache entry at its prior value (`fetch_subreddit`
returns a value rather than raising, see `fetch_failure_silent`), and the
result of the cycle at any other topic `S` does not depend on `T`'s
outcome: replacing `T`'s outcome by anything else while keeping the other
topics' outcomes leaves every other topic's entry unchanged. -/
theorem fetch_failure_isolated (cache : Cache) (outcomes outcomes' : String → FetchOutcome)
    (T S e : String) (hfail : outcomes T = FetchOutcome.failure e)
    (hagree : ∀ S', S' ≠ T → outcomes' S' = outcomes S') (hS : S ≠ T) :
    update_all_subreddits cache outcomes T = cache T ∧
    update_all_subreddits cache outcomes' S = update_all_subreddits cache outcomes S := by
  constructor
  · rw [update_all_get, hfail]
    simp [fetch_subreddit, fetch_body]
  · rw [update_all_get, update_all_get, hagree S hS]

/-- Witness for `fetch_failure_isolated`: every topic's fetch fails in
`outcomes`; `outcomes'` succeeds at `"cats"` instead. -/
theorem fetch_failure_isolated_witness :
    update_all_subreddits cacheA (fun _ => FetchOutcome.failure "timeout") "cats" =
      cacheA "cats" ∧
    update_all_subreddits cacheA
        (fun s => if s = "cats" then FetchOutcome.success [rawA]
                  else FetchOutcome.failure "timeout") "dogs" =
      update_all_subreddits cacheA (fun _ => FetchOutcome.failure "timeout") "dogs" :=
  fetch_failure_isolated cacheA (fun _ => FetchOutcome.failure "timeout")
    (fun s => if s = "cats" then FetchOutcome.success [rawA]
              else FetchOutcome.failure "timeout")
    "cats" "dogs" "timeout" rfl
    (by intro s hs; simp [hs]) (by decide)

/-- Claim C7 (confirmed): every post the feed client returns has a
non-absent, non-empty URL that ends, after ASCII lower-casing, in one of
the four image extensions; and the filter discards any raw submission
whose URL is absent, empty, or fails the extension test. -/
theorem fetch_posts_are_images (sub : String) (o : FetchOutcome) (p : Post)
    (hp : p ∈ (fetch_subreddit sub o).1) :
    (p.url ≠ "" ∧ ∃ ext ∈ imageExts, strEndsWith (pyLower p.url) ext = true) ∧
    (∀ raw : RawPost, raw.url = none ∨ raw.url = some "" → processPost raw = none) ∧
    (∀ raw : RawPost, ∀ u, raw.url = some u → isImageUrl u = false →
      processPost raw = none) := by
  refine ⟨?_, ?_, ?_⟩
  · cases o with
    | failure e => simp [fetch_subreddit, fetch_body] at hp
    | success data =>
      simp only [fetch_subreddit, fetch_body] at hp
      obtain ⟨raw, -, hraw⟩ := List.mem_filterMap.mp hp
      unfold processPost at hraw
      cases hu : raw.url with
      | none => rw [hu] at hraw; exact absurd hraw (by simp)
      | some u =>
        rw [hu] at hraw
        by_cases h1 : u = ""
        · simp [h1] at hraw
        · by_cases h2 : isImageUrl u
          · simp only [h1, if_false, h2, if_true] at hraw
            cases hraw
            refine ⟨h1, ?_⟩
            simpa [isImageUrl, List.any_eq_true] using h2
          · simp [h1, h2] at hraw
  · intro raw h
    rcases h with h | h <;> simp [processPost, h]
  · intro raw u hu himg
    simp only [processPost, hu]
    by_cases h1 : u = "" <;> simp [h1, himg]

/-- Witness for `fetch_posts_are_images` at a concrete response. -/
theorem fetch_posts_are_images_witness :
    (postA.url ≠ "" ∧ ∃ ext ∈ imageExts, strEndsWith (pyLower postA.url) ext = true) ∧
    (∀ raw : RawPost, raw.url = none ∨ raw.url = some "" → processPost raw = none) ∧
    (∀ raw : RawPost, ∀ u, raw.url = some u → isImageUrl u = false →
      processPost raw = none) :=
  fetch_posts_are_images "cats" (FetchOutcome.success [rawA]) postA (by decide)

/-- Claim C4 counterexample: the feed client has no truncation of its own.
A response whose `data` array holds 51 valid image submissions yields a
returned list of 51 posts, exceeding `MAX_POSTS_PER_SUB = 50`. -/
theorem fetch_can_exceed_max :
    ((fetch_subreddit "cats" (FetchOutcome.success (List.replicate 51 rawA))).1).length = 51 ∧
    ¬ (51 ≤ MAX_POSTS_PER_SUB) := by
  constructor
  · simp [fetch_subreddit, fetch_body]
    decide
  · decide

/-- Claim C4 amended (proved): the request URL asks the API for at most
`MAX_POSTS_PER_SUB` submissions (`size=50`), and the returned list is never
longer than the response's `data` array; hence whenever the API honours the
requested size, the result has length at most `MAX_POSTS_PER_SUB`. -/
theorem fetch_length_bounded (sub : String) (data : List RawPost)
    (h : data.length ≤ MAX_POSTS_PER_SUB) :
    searchUrl sub =
      "https://api.pullpush.io/reddit/submission/search?subreddit=" ++ sub ++
        "&size=" ++ "50" ++ "&sort=new&type=link&over_18=false" ∧
    ((fetch_subreddit sub (FetchOutcome.success data)).1).length ≤ data.length ∧
    ((fetch_subreddit sub (FetchOutcome.success data)).1).length ≤ MAX_POSTS_PER_SUB := by
  have hle : ((fetch_subreddit sub (FetchOutcome.success data)).1).length ≤ data.length := by
    simp only [fetch_subreddit, fetch_body]
    exact List.length_filterMap_le _ _
  exact ⟨rfl, hle, le_trans hle h⟩

/-- Witness for `fetch_length_bounded` at a one-element response. -/
theorem fetch_length_bounded_witness :
    searchUrl "cats" =
      "https://api.pullpush.io/reddit/submission/search?subreddit=" ++ "cats" ++
        "&size=" ++ "50" ++ "&sort=new&type=link&over_18=false" ∧
    ((fetch_subreddit "cats" (FetchOutcome.success [rawA])).1).length ≤ [rawA].length ∧
    ((fetch_subreddit "cats" (FetchOutcome.success [rawA])).1).length ≤ MAX_POSTS_PER_SUB :=
  fetch_length_bounded "cats" [rawA] (by decide)

/-- Claim C8 (confirmed): when the randomly chosen topic's cache entry is
empty, the start path (`send_random_post` with no `message_id`) replies
with the fixed failure text and stops: the session is returned unchanged,
nothing is logged, and nothing is raised. -/
theorem start_empty_cache_message (cache : Cache) (session : Session)
    (subPick postPick : Nat) (edit : Except String Unit)
    (h : cache (pyChoice SUBREDDITS subPick) = []) :
    send_random_post cache session subPick postPick none edit =
      ⟨session, [HandlerOutput.sentText "Oops, something went wrong lol, try again later."],
       [], none⟩ := by
  simp [send_random_post, h]

/-- Witness for `start_empty_cache_message` on the startup cache. -/
theorem start_empty_cache_message_witness :
    send_random_post initCache emptySession 0 0 none (Except.ok ()) =
      ⟨emptySession,
       [HandlerOutput.sentText "Oops, something went wrong lol, try again later."],
       [], none⟩ :=
  start_empty_cache_message initCache emptySession 0 0 (Except.ok ()) rfl

/-- Claim C10 (confirmed): a navigation press with no session yet
(`last_sub` absent) does not raise: the missing key looks up an empty
cache entry, the caption is edited to the no-cached-posts notice naming
the absent topic as `None`, and the session is left unset. -/
theorem nav_without_session_safe (cache : Cache) (session : Session) (action : String)
    (subPick postPick : Nat) (edit : Except String Unit)
    (h : session.last_sub = none) :
    button_handler cache session action subPick postPick edit =
      ⟨session, [HandlerOutput.editedCaption "No cached posts for r/None."], [], none⟩ := by
  have hp : cacheLookup cache session.last_sub = [] := by rw [h]; rfl
  simp only [button_handler, hp, if_pos rfl, h]
  rfl

/-- Witness for `nav_without_session_safe` on a fresh conversation. -/
theorem nav_without_session_safe_witness :
    button_handler cacheA emptySession "next" 0 0 (Except.ok ()) =
      ⟨emptySession, [HandlerOutput.editedCaption "No cached posts for r/None."],
       [], none⟩ :=
  nav_without_session_safe cacheA emptySession "next" 0 0 (Except.ok ()) rfl

/-- Claim C9 (confirmed): the handler never inspects whether the action is
`"next"` or `"prev"` — for every cache, session, draw and edit outcome the
two invocations are the same value, and (when the last topic's cache entry
is non-empty) both record a fresh uniform draw from that entry as
`last_post` while leaving `last_sub` untouched: no direction or cursor is
tracked. -/
theorem next_prev_identical (cache : Cache) (session : Session)
    (subPick postPick : Nat) (edit : Except String Unit) :
    button_handler cache session "next" subPick postPick edit =
      button_handler cache session "prev" subPick postPick edit ∧
    (cacheLookup cache session.last_sub ≠ [] →
      (button_handler cache session "next" subPick postPick edit).session =
        ⟨session.last_sub, some (pyChoice (cacheLookup cache session.last_sub) postPick)⟩) := by
  constructor
  · by_cases hp : cacheLookup cache session.last_sub = [] <;>
      simp [button_handler, hp]
  · intro hp
    cases edit <;> simp [button_handler, hp]

/-- Witness for `next_prev_identical` at a concrete state. -/
theorem next_prev_identical_witness :
    (button_handler cacheA sessA "next" 0 0 (Except.ok ()) =
      button_handler cacheA sessA "prev" 0 0 (Except.ok ())) ∧
    (cacheLookup cacheA sessA.last_sub ≠ [] →
      (button_handler cacheA sessA "next" 0 0 (Except.ok ())).session =
        ⟨sessA.last_sub, some (pyChoice (cacheLookup cacheA sessA.last_sub) 0)⟩) :=
  next_prev_identical cacheA sessA 0 0 (Except.ok ())

/-- Claim C2 counterexample: a `"random"` navigation press reaches the
edit inside `send_random_post`, which is not guarded by a `try`: when the
edit errors, the exception escapes the handler and nothing is logged —
the claim fails for the `"random"` action. -/
theorem random_edit_error_propagates :
    (button_handler cacheA sessA "random" 0 0 (Except.error "boom")).raised = some "boom" ∧
    (button_handler cacheA sessA "random" 0 0 (Except.error "boom")).logs = [] := by
  decide

/-- Claim C2 amended (proved): for the `"prev"` and `"next"` actions, an
edit error is caught: the handler logs the failure, raises nothing, and
sends no message at all (in particular no fallback new message). -/
theorem nav_edit_error_swallowed (cache : Cache) (session : Session) (action : String)
    (subPick postPick : Nat) (e : String)
    (hact : action = "prev" ∨ action = "next")
    (hp : cacheLookup cache session.last_sub ≠ []) :
    (button_handler cache session action subPick postPick (Except.error e)).raised = none ∧
    (button_handler cache session action subPick postPick (Except.error e)).logs =
      ["Failed to edit media: " ++ e] ∧
    (button_handler cache session action subPick postPick (Except.error e)).outputs = [] := by
  have hne : action ≠ "random" := by
    rcases hact with h | h <;> subst h <;> decide
  simp [button_handler, hp, hne]

/-- Witness for `nav_edit_error_swallowed` at a concrete failing edit. -/
theorem nav_edit_error_swallowed_witness :
    (button_handler cacheA sessA "prev" 0 0 (Except.error "boom")).raised = none ∧
    (button_handler cacheA sessA "prev" 0 0 (Except.error "boom")).logs =
      ["Failed to edit media: " ++ "boom"] ∧
    (button_handler cacheA sessA "prev" 0 0 (Except.error "boom")).outputs = [] :=
  nav_edit_error_swallowed cacheA sessA "prev" 0 0 "boom" (Or.inl rfl) (by decide)

/-- Claim C1 counterexample: the rendered caption is
`"<title>\n/r/<topic>"`, not `"<title>\n/<topic>"` as claimed: at a
concrete cache the start path sends caption `"A cat\n/r/aww"`, which
differs from `"A cat\n/aww"`. -/
theorem caption_uses_r_slash :
    (send_random_post cacheA emptySession 0 0 none (Except.ok ())).outputs =
      [HandlerOutput.sentPhoto "http://x/a.jpg" ("A cat" ++ "\n/r/" ++ "aww")] ∧
    ("A cat" ++ "\n/r/" ++ "aww") ≠ ("A cat" ++ "\n/" ++ "aww") := by
  decide

/-- Claim C1 amended (proved): every render with a non-empty cache entry —
the start path's send, the `"random"` press's in-place edit, and the
`"next"` and `"prev"` presses' edits — carries a caption equal to the
post's title, a newline, and `"/r/"` followed by the topic name, and the
session records the selected topic and the rendered post (`last_sub` is
written by the start and random paths and kept by the next/prev paths,
`last_post` is the rendered post in all four). -/
theorem rendered_caption_and_session (cache : Cache) (session : Session)
    (subPick postPick : Nat) (edit : Except String Unit)
    (hs : cache (pyChoice SUBREDDITS subPick) ≠ [])
    (hn : cacheLookup cache session.last_sub ≠ []) :
    send_random_post cache session subPick postPick none edit =
      ⟨⟨some (pyChoice SUBREDDITS subPick),
        some (pyChoice (cache (pyChoice SUBREDDITS subPick)) postPick)⟩,
       [HandlerOutput.sentPhoto
          (pyChoice (cache (pyChoice SUBREDDITS subPick)) postPick).url
          ((pyChoice (cache (pyChoice SUBREDDITS subPick)) postPick).title ++ "\n/r/" ++
            pyChoice SUBREDDITS subPick)],
       [], none⟩ ∧
    button_handler cache session "random" subPick postPick (Except.ok ()) =
      ⟨⟨some (pyChoice SUBREDDITS subPick),
        some (pyChoice (cache (pyChoice SUBREDDITS subPick)) postPick)⟩,
       [HandlerOutput.editedMedia
          (pyChoice (cache (pyChoice SUBREDDITS subPick)) postPick).url
          ((pyChoice (cache (pyChoice SUBREDDITS subPick)) postPick).title ++ "\n/r/" ++
            pyChoice SUBREDDITS subPick)],
       [], none⟩ ∧
    button_handler cache session "next" subPick postPick (Except.ok ()) =
      ⟨⟨session.last_sub, some (pyChoice (cacheLookup cache session.last_sub) postPick)⟩,
       [HandlerOutput.editedMedia
          (pyChoice (cacheLookup cache session.last_sub) postPick).url
          ((pyChoice (cacheLookup cache session.last_sub) postPick).title ++ "\n/r/" ++
            pyStr session.last_sub)],
       [], none⟩ ∧
    button_handler cache session "prev" subPick postPick (Except.ok ()) =
      ⟨⟨session.last_sub, some (pyChoice (cacheLookup cache session.last_sub) postPick)⟩,
       [HandlerOutput.editedMedia
          (pyChoice (cacheLookup cache session.last_sub) postPick).url
          ((pyChoice (cacheLookup cache session.last_sub) postPick).title ++ "\n/r/" ++
            pyStr session.last_sub)],
       [], none⟩ := by
  refine ⟨?_, ?_, ?_, ?_⟩
  · simp [send_random_post, hs]
  · simp [button_handler, hn, send_random_post, hs]
  · simp [button_handler, hn]
  · simp [button_handler, hn]

/-- Witness for `rendered_caption_and_session` at a concrete state. -/
theorem rendered_caption_and_session_witness :
    send_random_post cacheA sessA 0 0 none (Except.ok ()) =
      ⟨⟨some (pyChoice SUBREDDITS 0), some (pyChoice (cacheA (pyChoice SUBREDDITS 0)) 0)⟩,
       [HandlerOutput.sentPhoto (pyChoice (cacheA (pyChoice SUBREDDITS 0)) 0).url
          ((pyChoice (cacheA (pyChoice SUBREDDITS 0)) 0).title ++ "\n/r/" ++
            pyChoice SUBREDDITS 0)],
       [], none⟩ ∧
    button_handler cacheA sessA "random" 0 0 (Except.ok ()) =
      ⟨⟨some (pyChoice SUBREDDITS 0), some (pyChoice (cacheA (pyChoice SUBREDDITS 0)) 0)⟩,
       [HandlerOutput.editedMedia (pyChoice (cacheA (pyChoice SUBREDDITS 0)) 0).url
          ((pyChoice (cacheA (pyChoice SUBREDDITS 0)) 0).title ++ "\n/r/" ++
            pyChoice SUBREDDITS 0)],
       [], none⟩ ∧
    button_handler cacheA sessA "next" 0 0 (Except.ok ()) =
      ⟨⟨sessA.last_sub, some (pyChoice (cacheLookup cacheA sessA.last_sub) 0)⟩,
       [HandlerOutput.editedMedia (pyChoice (cacheLookup cacheA sessA.last_sub) 0).url
          ((pyChoice (cacheLookup cacheA sessA.last_sub) 0).title ++ "\n/r/" ++
            pyStr sessA.last_sub)],
       [], none⟩ ∧
    button_handler cacheA sessA "prev" 0 0 (Except.ok ()) =
      ⟨⟨sessA.last_sub, some (pyChoice (cacheLookup cacheA sessA.last_sub) 0)⟩,
       [HandlerOutput.editedMedia (pyChoice (cacheLookup cacheA sessA.last_sub) 0).url
          ((pyChoice (cacheLookup cacheA sessA.last_sub) 0).title ++ "\n/r/" ++
            pyStr sessA.last_sub)],
       [], none⟩ :=
  rendered_caption_and_session cacheA sessA 0 0 (Except.ok ())
    (by decide) (by decide)
